import Mathlib

/-!
Shallow embedding of `w3af/plugins/auth/autocomplete.py` (the `autocomplete`
authentication plugin) and proofs about its login workflow: the form-selection
loop of `_get_login_form`, the attempt gate of `login`, the credential
fill/submit step of `_submit_form`, the session-liveness check
`has_active_session`, and the option validation of `set_options`.

External collaborators (HTTP transport, HTML parser) are modelled as an
environment oracle `Env`; each network call made by the plugin is recorded as a
`NetEvent` in a trace.
-/

namespace Autocomplete

/-- One parsed HTML form as the document parser hands it to `_get_login_form`:
the plugin only reads `is_login_form()`, `get_action().get_domain()`, and (via
`dc_from_form_params` / `set_login_username` / `set_login_password`) whether
the form carries recognizable username and password fields. -/
structure FormParams where
  is_login_form : Bool
  action_domain : String
  has_username_field : Bool
  has_password_field : Bool
deriving DecidableEq

/-- Outcome of the HTTP GET of `login_form_url` followed by the parser lookup:
either the GET raises (caught at autocomplete.py lines 144-152), or
`get_document_parser_for` raises `BaseFrameworkException` (lines 157-162), or
the document parser yields its list of forms. -/
inductive GetLoginOutcome where
  | transport_error : GetLoginOutcome
  | parser_error : GetLoginOutcome
  | parsed : List FormParams → GetLoginOutcome
deriving DecidableEq

/-- The external world as seen through the three transport calls the plugin
makes: the GET of `login_form_url` (plus parser lookup), `send_mutant` on the
filled form (`true` means no exception was raised), and the GET of `check_url`
(`none` means the GET raised; `some body` is the response body). -/
structure Env where
  get_login : GetLoginOutcome
  send_mutant_ok : Bool
  get_check : Option String
deriving DecidableEq

/-- The mutable attributes of one `autocomplete` plugin instance that the login
pipeline reads or writes: the configured credentials and check string, the
domain of `login_form_url` (the only part of that URL the selection logic
inspects), and the internal `_attempt_login` gate flag. -/
structure LoginState where
  username : String
  password : String
  login_form_url_domain : String
  check_string : String
  attempt_login : Bool
deriving DecidableEq

/-- The state `__init__` leaves a fresh instance in: empty credentials and
check string, `login_form_url = URL(http://host.tld/login)` whose domain is
`host.tld`, and the gate open (`_attempt_login = True`). -/
def initial_state : LoginState :=
  { username := ""
    password := ""
    login_form_url_domain := "host.tld"
    check_string := ""
    attempt_login := true }

/-- One network request issued by the plugin. -/
inductive NetEvent where
  | get_login_form_url : NetEvent
  | submit_login_form : NetEvent
  | get_check_url : NetEvent
deriving DecidableEq

/-- Python list/string prefix test: `leads n h` is true when `n` is an initial
segment of `h` (helper for the substring test below). -/
def leads : List Char → List Char → Bool
  | [], _ => true
  | _ :: _, [] => false
  | a :: as, b :: bs => a == b && leads as bs

/-- Helper for the Python `in` operator on strings: `occurs n h` is true when
`n` appears as a contiguous run inside `h`. -/
def occurs (needle : List Char) : List Char → Bool
  | [] => leads needle []
  | b :: bs => leads needle (b :: bs) || occurs needle bs

/-- The Python expression `needle in hay` on strings: literal, case-sensitive
substring containment (autocomplete.py line 222). -/
def py_in (needle hay : String) : Bool :=
  occurs needle.toList hay.toList

/-- The two filter conditions of the loop in `_get_login_form` (lines 174-178):
a form is kept when `is_login_form()` holds and the action URL's domain equals
the domain of `login_form_url`. -/
def qualifies (d : String) (fp : FormParams) : Bool :=
  fp.is_login_form && fp.action_domain == d

/-- The loop of `_get_login_form` (lines 164-190) with its two pieces of loop
state made explicit: `login_form` (the current selection, initially `None`)
and the number of ambiguity debug messages emitted so far (line 184: one per
qualifying form encountered while a selection already exists; the selection is
not overwritten). -/
def select_loop (d : String) : List FormParams → Option FormParams → Nat → Option FormParams × Nat
  | [], login_form, ambiguity_msgs => (login_form, ambiguity_msgs)
  | fp :: rest, login_form, ambiguity_msgs =>
    if !fp.is_login_form then
      select_loop d rest login_form ambiguity_msgs
    else if !(fp.action_domain == d) then
      select_loop d rest login_form ambiguity_msgs
    else
      match login_form with
      | some lf => select_loop d rest (some lf) (ambiguity_msgs + 1)
      | none => select_loop d rest (some fp) ambiguity_msgs

/-- Form selection over a whole page: the loop of `_get_login_form` started
with no selection and zero diagnostics. Returns the selected form (`none` is
the NotFound outcome, reported at lines 192-196 with an error log) and the
number of ambiguity diagnostics emitted. -/
def select_login_form (d : String) (forms : List FormParams) : Option FormParams × Nat :=
  select_loop d forms none 0

/-- A failure of the credential-filling step of `_submit_form`. -/
inductive FillError where
  | missing_username_field : FillError
  | missing_password_field : FillError
deriving DecidableEq

/-- Modelled from the spec: `set_login_username` and `set_login_password` live
in the form class outside the given sources; per the spec the fill step has
"no error conditions; fails only if the form lacks recognized
username/password fields, in which case it signals a FillError". A Python call
whose return value is discarded signals failure by raising, so the fill step
is an `Except`: it raises when the selected form lacks the username field
(checked first, line 114) or the password field (line 115). -/
def fill_credentials (fp : FormParams) : Except FillError Unit :=
  if !fp.has_username_field then Except.error FillError.missing_username_field
  else if !fp.has_password_field then Except.error FillError.missing_password_field
  else Except.ok ()

/-- The `_submit_form` method (lines 99-132): fill the credentials (NOT inside
the try block, so a fill failure propagates), then `send_mutant` inside
try/except (lines 122-130), returning `False` on a caught transport error and
`True` otherwise. The trace records the wire call when it is reached. -/
def submit_form (env : Env) (fp : FormParams) : Except FillError Bool × List NetEvent :=
  match fill_credentials fp with
  | Except.error e => (Except.error e, [])
  | Except.ok () =>
    if env.send_mutant_ok then (Except.ok true, [NetEvent.submit_login_form])
    else (Except.ok false, [NetEvent.submit_login_form])

/-- The `has_active_session` method (lines 206-229): GET `check_url` inside
try/except, returning `False` when the GET raises, and otherwise the result of
the Python test `self.check_string in body`. The trace records the GET. -/
def has_active_session (st : LoginState) (env : Env) : Bool × List NetEvent :=
  match env.get_check with
  | none => (false, [NetEvent.get_check_url])
  | some body => (py_in st.check_string body, [NetEvent.get_check_url])

/-- The value of one `login()` call: the Python return value (`Except.error`
when an uncaught exception escapes; otherwise `none` models Python `None` from
the bare `return` at line 67, `some b` models `return False` / `return True`),
the instance state after the call, and the network requests issued. -/
structure LoginCall where
  result : Except FillError (Option Bool)
  state : LoginState
  trace : List NetEvent

/-- The `login` method (lines 53-97). If the gate `_attempt_login` is false the
bare `return` at line 67 yields `None` with no network activity. Otherwise
`_get_login_form` runs (the GET of `login_form_url` is always issued); when it
yields no form — transport error, parser error, or no qualifying form — the
gate is closed and `False` is returned (lines 79-81). With a form in hand,
`_submit_form` runs (a fill failure propagates out of `login`), then
`has_active_session`, and `True` is returned only when the check passes. -/
def login (st : LoginState) (env : Env) : LoginCall :=
  if !st.attempt_login then
    { result := Except.ok none, state := st, trace := [] }
  else
    match env.get_login with
    | GetLoginOutcome.transport_error =>
      { result := Except.ok (some false)
        state := { st with attempt_login := false }
        trace := [NetEvent.get_login_form_url] }
    | GetLoginOutcome.parser_error =>
      { result := Except.ok (some false)
        state := { st with attempt_login := false }
        trace := [NetEvent.get_login_form_url] }
    | GetLoginOutcome.parsed forms =>
      match (select_login_form st.login_form_url_domain forms).1 with
      | none =>
        { result := Except.ok (some false)
          state := { st with attempt_login := false }
          trace := [NetEvent.get_login_form_url] }
      | some fp =>
        match submit_form env fp with
        | (Except.error e, tr) =>
          { result := Except.error e, state := st, trace := NetEvent.get_login_form_url :: tr }
        | (Except.ok false, tr) =>
          { result := Except.ok (some false), state := st
            trace := NetEvent.get_login_form_url :: tr }
        | (Except.ok true, tr) =>
          match has_active_session st env with
          | (false, ctr) =>
            { result := Except.ok (some false), state := st
              trace := NetEvent.get_login_form_url :: (tr ++ ctr) }
          | (true, ctr) =>
            { result := Except.ok (some true), state := st
              trace := NetEvent.get_login_form_url :: (tr ++ ctr) }

/-- The option values handed to `set_options` (the five options that
`get_options` declares, each carrying a value; emptiness of the value is what
the validation loop tests with `if not o.get_value()`). -/
structure OptionValues where
  username : String
  password : String
  login_form_url : String
  check_url : String
  check_string : String
deriving DecidableEq

/-- The five user-configured attributes of the plugin instance that
`set_options` assigns (lines 271-275). -/
structure Config where
  username : String
  password : String
  login_form_url : String
  check_url : String
  check_string : String
deriving DecidableEq

/-- The (name, value) pairs of the option list in the order `get_options`
builds it, which is the order the validation loop `for o in options_list`
iterates. -/
def option_items (o : OptionValues) : List (String × String) :=
  [("username", o.username),
   ("password", o.password),
   ("login_form_url", o.login_form_url),
   ("check_url", o.check_url),
   ("check_string", o.check_string)]

/-- The `missing_options` list built at lines 277-281: the names of the
options whose value is empty, in iteration order. -/
def missing_options (o : OptionValues) : List String :=
  (option_items o).filterMap (fun p => if p.2 == "" then some p.1 else none)

/-- The `set_options` method (lines 262-286): assign all five attributes from
the option values, then build `missing_options` and raise
`BaseFrameworkException` (modelled as `Except.error` carrying the list of
missing option names that the message interpolates) when it is non-empty. The
returned `Config` is the instance state when the method finishes or raises. -/
def set_options (cfg : Config) (o : OptionValues) : Config × Except (List String) Unit :=
  let cfg := { cfg with username := o.username }
  let cfg := { cfg with password := o.password }
  let cfg := { cfg with check_string := o.check_string }
  let cfg := { cfg with login_form_url := o.login_form_url }
  let cfg := { cfg with check_url := o.check_url }
  if (missing_options o).isEmpty then (cfg, Except.ok ())
  else (cfg, Except.error (missing_options o))

/-! Helper lemmas. -/

theorem leads_iff (n h : List Char) : leads n h = true ↔ n <+: h := by
  induction n generalizing h with
  | nil => simp [leads]
  | cons a as ih =>
    cases h with
    | nil => simp [leads]
    | cons b bs => simp [leads, List.cons_prefix_cons, ih, And.comm]

theorem occurs_iff (n h : List Char) : occurs n h = true ↔ n <:+: h := by
  induction h with
  | nil => simp [occurs, leads_iff, List.prefix_nil, List.infix_nil]
  | cons b bs ih => simp [occurs, leads_iff, ih, List.infix_cons_iff]

theorem occurs_nil (h : List Char) : occurs [] h = true := by
  cases h <;> simp [occurs, leads]

theorem string_toList_eq_nil {s : String} (h : s.toList = []) : s = "" := by
  cases s with
  | mk data =>
    cases data with
    | nil => rfl
    | cons c cs => simp [String.toList, String.data] at h

theorem select_loop_some (d : String) (forms : List FormParams) (lf : FormParams) (n : Nat) :
    select_loop d forms (some lf) n = (some lf, n + forms.countP (qualifies d)) := by
  induction forms generalizing n with
  | nil => simp [select_loop]
  | cons fp rest ih =>
    cases h1 : fp.is_login_form <;> cases h2 : fp.action_domain == d <;>
      simp [select_loop, h1, h2, ih, List.countP_cons, qualifies] <;> omega

theorem select_loop_none_fst (d : String) (forms : List FormParams) (n : Nat) :
    (select_loop d forms none n).1 = forms.find? (qualifies d) := by
  induction forms generalizing n with
  | nil => simp [select_loop]
  | cons fp rest ih =>
    cases h1 : fp.is_login_form <;> cases h2 : fp.action_domain == d <;>
      simp [select_loop, h1, h2, ih, select_loop_some, List.find?_cons, qualifies]

theorem select_loop_none_snd (d : String) (forms : List FormParams) (n : Nat) :
    (select_loop d forms none n).2 = n + (forms.countP (qualifies d) - 1) := by
  induction forms generalizing n with
  | nil => simp [select_loop]
  | cons fp rest ih =>
    cases h1 : fp.is_login_form <;> cases h2 : fp.action_domain == d <;>
      simp [select_loop, h1, h2, ih, select_loop_some, List.countP_cons, qualifies]

theorem empty_toList : ("" : String).toList = [] := rfl

/-! Claim C3: form selection. -/

/-- C3: the form-selection step returns the first form in document order that is classified
as a login form and whose action domain equals the login_form_url domain (the `List.find?`
of the `qualifies` filter), and returns none exactly when no form qualifies; a selected form
always passes both filters, so a form whose action domain differs from the login_form_url
domain is never selected even if classified as a login form; and the number of ambiguity
diagnostics emitted is the number of qualifying forms minus one — exactly N - 1 when N ≥ 2
forms qualify — so the first selection is never overwritten. -/
theorem c3_select_login_form (d : String) (forms : List FormParams) :
    (select_login_form d forms).1 = forms.find? (qualifies d)
    ∧ ((select_login_form d forms).1 = none ↔ ∀ fp ∈ forms, ¬ qualifies d fp = true)
    ∧ (∀ fp, (select_login_form d forms).1 = some fp →
        fp.is_login_form = true ∧ fp.action_domain = d)
    ∧ (2 ≤ forms.countP (qualifies d) →
        (select_login_form d forms).2 = forms.countP (qualifies d) - 1) := by
  have hfst : (select_login_form d forms).1 = forms.find? (qualifies d) :=
    select_loop_none_fst d forms 0
  refine ⟨hfst, ?_, ?_, ?_⟩
  · rw [hfst]
    exact List.find?_eq_none
  · intro fp h
    rw [hfst] at h
    have hq := List.find?_some h
    simp [qualifies] at hq
    exact hq
  · intro _
    have hsnd := select_loop_none_snd d forms 0
    simpa [select_login_form] using hsnd

/-! Claim C4 (corrected) and claim C9: the session-liveness check. -/

def c4_env : Env :=
  { get_login := GetLoginOutcome.transport_error
    send_mutant_ok := false
    get_check := some "" }

/-- C4 counterexample: a fresh instance has an empty check_string; when the GET of check_url
succeeds with an empty body, has_active_session returns true — refuting the claim's clause
that it returns false on an empty body. -/
theorem c4_counterexample :
    initial_state.check_string = "" ∧ c4_env.get_check = some "" ∧
      (has_active_session initial_state c4_env).1 = true :=
  ⟨rfl, rfl, rfl⟩

/-- C4 (amended): has_active_session returns true iff the GET of check_url succeeds and
check_string occurs as a literal case-sensitive substring of the response body; it returns
false on transport failure (fail-closed), on an absent substring, and on an empty body
whenever check_string is non-empty (with an empty check_string an empty body still contains
the empty substring, and the check returns true — see claim C9). -/
theorem c4_has_active_session (st : LoginState) (env : Env) :
    ((has_active_session st env).1 = true ↔
      ∃ body, env.get_check = some body ∧ st.check_string.toList <:+: body.toList)
    ∧ (env.get_check = none → (has_active_session st env).1 = false)
    ∧ (∀ body, env.get_check = some body → ¬ st.check_string.toList <:+: body.toList →
        (has_active_session st env).1 = false)
    ∧ (st.check_string ≠ "" → env.get_check = some "" →
        (has_active_session st env).1 = false) := by
  refine ⟨?_, ?_, ?_, ?_⟩
  · cases h : env.get_check with
    | none => simp [has_active_session, h]
    | some body => simp [has_active_session, h, py_in, occurs_iff]
  · intro h
    simp [has_active_session, h]
  · intro body h hn
    have hocc : occurs st.check_string.data body.data = false := by
      cases hb : occurs st.check_string.data body.data
      · rfl
      · exact absurd ((occurs_iff _ _).mp hb) hn
    simp [has_active_session, h, py_in, hocc]
  · intro hcs h
    have hne : st.check_string.data ≠ [] := fun hl => hcs (string_toList_eq_nil hl)
    have hocc : occurs st.check_string.data [] = false := by
      cases hd : st.check_string.data with
      | nil => exact absurd hd hne
      | cons c cs => simp [occurs, leads]
    simp [has_active_session, h, py_in, hocc]

/-- C9: with an empty check_string, has_active_session returns true for every check-URL
response received without a transport error, regardless of the body (including an empty
body), because the empty string is a substring of every string. -/
theorem c9_empty_check_string (st : LoginState) (env : Env) (body : String)
    (h1 : st.check_string = "") (h2 : env.get_check = some body) :
    (has_active_session st env).1 = true := by
  simp [has_active_session, h2, py_in, h1, empty_toList, occurs_nil]

/-- C9 witness: a fresh instance (empty check_string) and a successful check GET. -/
theorem c9_witness :
    (has_active_session initial_state
      { get_login := GetLoginOutcome.transport_error
        send_mutant_ok := false
        get_check := some "w3af" }).1 = true :=
  c9_empty_check_string initial_state _ "w3af" rfl rfl

/-! Claims C1 and C2 (both corrected): the attempt gate. -/

def transport_fail_env : Env :=
  { get_login := GetLoginOutcome.transport_error
    send_mutant_ok := true
    get_check := some "" }

/-- C1 counterexample: when the GET of login_form_url fails with a transport error,
_get_login_form returns None and login() runs line 80, closing the attempt gate; the next
login() call on the resulting state issues no network request at all — refuting both "the
gate is not closed" and "a subsequent login() call attempts the fetch again". -/
theorem c1_counterexample :
    (login initial_state transport_fail_env).state.attempt_login = false ∧
      (login (login initial_state transport_fail_env).state transport_fail_env).trace = [] :=
  ⟨rfl, rfl⟩

/-- C1 (amended): if the GET of login_form_url fails with a transport error during login(),
login() logs the failure and returns False, but the attempt gate is closed by this failure
(the code treats any problem fetching or parsing the login form as permanent), so a
subsequent login() call on the same instance returns immediately — with Python None — and
does not attempt the fetch again. -/
theorem c1_get_transport_error (st : LoginState) (env next_env : Env)
    (hgate : st.attempt_login = true)
    (hfail : env.get_login = GetLoginOutcome.transport_error) :
    (login st env).result = Except.ok (some false)
    ∧ (login st env).trace = [NetEvent.get_login_form_url]
    ∧ (login st env).state.attempt_login = false
    ∧ (login (login st env).state next_env).result = Except.ok none
    ∧ (login (login st env).state next_env).trace = [] := by
  have h : login st env =
      ⟨Except.ok (some false), { st with attempt_login := false },
        [NetEvent.get_login_form_url]⟩ := by
    simp [login, hgate, hfail]
  refine ⟨?_, ?_, ?_, ?_, ?_⟩ <;> simp [h, login, hgate, hfail]

/-- C1 witness: a fresh instance whose login-page GET raises. -/
theorem c1_witness :
    (login initial_state transport_fail_env).result = Except.ok (some false)
    ∧ (login initial_state transport_fail_env).trace = [NetEvent.get_login_form_url]
    ∧ (login initial_state transport_fail_env).state.attempt_login = false
    ∧ (login (login initial_state transport_fail_env).state transport_fail_env).result
        = Except.ok none
    ∧ (login (login initial_state transport_fail_env).state transport_fail_env).trace = [] :=
  c1_get_transport_error initial_state transport_fail_env transport_fail_env rfl rfl

def closed_state : LoginState := { initial_state with attempt_login := false }

def c2_env : Env :=
  { get_login := GetLoginOutcome.parsed []
    send_mutant_ok := true
    get_check := some "" }

/-- C2 counterexample: with the gate closed, login() executes the bare `return` at line 67,
whose Python value is None, not False — the call returns a falsy value but not the literal
False the claim states. -/
theorem c2_counterexample :
    (login closed_state c2_env).result = Except.ok none ∧
      (Except.ok none : Except FillError (Option Bool)) ≠ Except.ok (some false) := by
  refine ⟨rfl, ?_⟩
  intro h
  exact Option.noConfusion (Except.ok.inj h)

/-- C2 (amended): once the attempt gate is closed, every subsequent login() call returns
immediately with Python None (a falsy value, though not the literal False), issues no
network request (no GET of login_form_url, no form submission, no check GET), and leaves the
state — including the closed gate — unchanged, until a new instance is constructed. -/
theorem c2_closed_gate (st : LoginState) (env : Env) (hgate : st.attempt_login = false) :
    (login st env).result = Except.ok none
    ∧ (login st env).trace = []
    ∧ (login st env).state = st := by
  refine ⟨?_, ?_, ?_⟩ <;> simp [login, hgate]

/-- C2 witness: a closed-gate instance in an environment that would answer every request. -/
theorem c2_witness :
    (login closed_state c2_env).result = Except.ok none
    ∧ (login closed_state c2_env).trace = []
    ∧ (login closed_state c2_env).state = closed_state :=
  c2_closed_gate closed_state c2_env rfl

/-! Claim C6: transport failure while submitting the form. -/

def good_form : FormParams :=
  { is_login_form := true
    action_domain := "host.tld"
    has_username_field := true
    has_password_field := true }

def submit_fail_env : Env :=
  { get_login := GetLoginOutcome.parsed [good_form]
    send_mutant_ok := false
    get_check := some "" }

/-- C6: if sending the filled login form fails with a transport error, the exception is
caught inside _submit_form (lines 122-130) and login() returns False; no exception
propagates, and the instance state — in particular the attempt gate — is unchanged. -/
theorem c6_submit_transport_error (st : LoginState) (env : Env) (forms : List FormParams)
    (fp : FormParams)
    (hgate : st.attempt_login = true)
    (hforms : env.get_login = GetLoginOutcome.parsed forms)
    (hsel : (select_login_form st.login_form_url_domain forms).1 = some fp)
    (hu : fp.has_username_field = true)
    (hp : fp.has_password_field = true)
    (hsend : env.send_mutant_ok = false) :
    (login st env).result = Except.ok (some false)
    ∧ (login st env).state = st
    ∧ (login st env).trace = [NetEvent.get_login_form_url, NetEvent.submit_login_form] := by
  refine ⟨?_, ?_, ?_⟩ <;>
    simp [login, hgate, hforms, hsel, submit_form, fill_credentials, hu, hp, hsend]

/-- C6 witness: a fresh instance, one qualifying form, and a failing send_mutant. -/
theorem c6_witness :
    (login initial_state submit_fail_env).result = Except.ok (some false)
    ∧ (login initial_state submit_fail_env).state = initial_state
    ∧ (login initial_state submit_fail_env).trace
        = [NetEvent.get_login_form_url, NetEvent.submit_login_form] :=
  c6_submit_transport_error initial_state submit_fail_env [good_form] good_form
    rfl rfl rfl rfl rfl rfl

/-! Claim C7 (corrected): which failures escape login() as exceptions. -/

def no_username_form : FormParams :=
  { is_login_form := true
    action_domain := "host.tld"
    has_username_field := false
    has_password_field := true }

def fill_fail_env : Env :=
  { get_login := GetLoginOutcome.parsed [no_username_form]
    send_mutant_ok := true
    get_check := some "" }

/-- C7 counterexample: a qualifying login form without a recognizable username field — the
fill step raises, and because the try/except in _submit_form (line 122) only wraps
send_mutant, the exception propagates out of login() instead of becoming a False result. -/
theorem c7_counterexample :
    (login initial_state fill_fail_env).result
      = Except.error FillError.missing_username_field := rfl

/-- C7 (amended): an exception escapes login() exactly when the gate is open, a qualifying
form is selected, and that form lacks a recognized username or password field — the fill
step's failure is the one non-configuration error that propagates; transport errors on any
of the three network calls, parser failures, the no-form outcome and a failed session check
are all converted to in-band return values. -/
theorem c7_exception_escape (st : LoginState) (env : Env) :
    (∃ e, (login st env).result = Except.error e) ↔
      (st.attempt_login = true ∧ ∃ forms fp, env.get_login = GetLoginOutcome.parsed forms
        ∧ (select_login_form st.login_form_url_domain forms).1 = some fp
        ∧ (fp.has_username_field = false ∨ fp.has_password_field = false)) := by
  cases hgate : st.attempt_login with
  | false => simp [login, hgate]
  | true =>
    cases hget : env.get_login with
    | transport_error => simp [login, hgate, hget]
    | parser_error => simp [login, hgate, hget]
    | parsed forms =>
      cases hsel : (select_login_form st.login_form_url_domain forms).1 with
      | none => simp [login, hgate, hget, hsel]
      | some fp =>
        cases hu : fp.has_username_field with
        | false => simp [login, hgate, hget, hsel, submit_form, fill_credentials, hu]
        | true =>
          cases hp : fp.has_password_field with
          | false => simp [login, hgate, hget, hsel, submit_form, fill_credentials, hu, hp]
          | true =>
            cases hsend : env.send_mutant_ok with
            | false =>
              simp [login, hgate, hget, hsel, submit_form, fill_credentials, hu, hp, hsend]
            | true =>
              cases hchk : env.get_check with
              | none =>
                simp [login, hgate, hget, hsel, submit_form, fill_credentials, hu, hp,
                  hsend, has_active_session, hchk]
              | some body =>
                cases hpy : py_in st.check_string body with
                | false =>
                  simp [login, hgate, hget, hsel, submit_form, fill_credentials, hu, hp,
                    hsend, has_active_session, hchk, hpy]
                | true =>
                  simp [login, hgate, hget, hsel, submit_form, fill_credentials, hu, hp,
                    hsend, has_active_session, hchk, hpy]

/-! Claim C8: no caching of a successful login. -/

theorem login_success (st : LoginState) (env : Env) (forms : List FormParams)
    (fp : FormParams) (body : String)
    (hgate : st.attempt_login = true)
    (hforms : env.get_login = GetLoginOutcome.parsed forms)
    (hsel : (select_login_form st.login_form_url_domain forms).1 = some fp)
    (hu : fp.has_username_field = true)
    (hp : fp.has_password_field = true)
    (hsend : env.send_mutant_ok = true)
    (hchk : env.get_check = some body)
    (hstr : py_in st.check_string body = true) :
    login st env =
      ⟨Except.ok (some true), st,
        [NetEvent.get_login_form_url, NetEvent.submit_login_form,
          NetEvent.get_check_url]⟩ := by
  simp [login, hgate, hforms, hsel, submit_form, fill_credentials, hu, hp, hsend,
    has_active_session, hchk, hstr]

/-- C8: in a state where a login attempt succeeds (gate open, qualifying form present and
fillable, submission succeeds, session check succeeds), calling login() twice performs the
full pipeline — login-page GET, form submission, check GET — on both calls and returns True
both times; the state is returned unchanged, so no already-logged-in status is cached. -/
theorem c8_login_idempotent (st : LoginState) (env : Env) (forms : List FormParams)
    (fp : FormParams) (body : String)
    (hgate : st.attempt_login = true)
    (hforms : env.get_login = GetLoginOutcome.parsed forms)
    (hsel : (select_login_form st.login_form_url_domain forms).1 = some fp)
    (hu : fp.has_username_field = true)
    (hp : fp.has_password_field = true)
    (hsend : env.send_mutant_ok = true)
    (hchk : env.get_check = some body)
    (hstr : py_in st.check_string body = true) :
    (login st env).result = Except.ok (some true)
    ∧ (login st env).trace = [NetEvent.get_login_form_url, NetEvent.submit_login_form,
        NetEvent.get_check_url]
    ∧ (login st env).state = st
    ∧ (login (login st env).state env).result = Except.ok (some true)
    ∧ (login (login st env).state env).trace = [NetEvent.get_login_form_url,
        NetEvent.submit_login_form, NetEvent.get_check_url] := by
  have h := login_success st env forms fp body hgate hforms hsel hu hp hsend hchk hstr
  refine ⟨?_, ?_, ?_, ?_, ?_⟩ <;> simp [h]

def success_env : Env :=
  { get_login := GetLoginOutcome.parsed [good_form]
    send_mutant_ok := true
    get_check := some "w3af" }

/-- C8 witness: a fresh instance in an environment where every pipeline stage succeeds. -/
theorem c8_witness :
    (login initial_state success_env).result = Except.ok (some true)
    ∧ (login initial_state success_env).trace = [NetEvent.get_login_form_url,
        NetEvent.submit_login_form, NetEvent.get_check_url]
    ∧ (login initial_state success_env).state = initial_state
    ∧ (login (login initial_state success_env).state success_env).result
        = Except.ok (some true)
    ∧ (login (login initial_state success_env).state success_env).trace
        = [NetEvent.get_login_form_url, NetEvent.submit_login_form, NetEvent.get_check_url] :=
  c8_login_idempotent initial_state success_env [good_form] good_form "w3af"
    rfl rfl rfl rfl rfl rfl rfl rfl

/-! Claims C5 and C10: option validation in set_options. -/

/-- C5: set_options raises (returns the error branch) exactly when at least one of the five
required options is empty, and the raised error lists the name of every missing option —
a name is in the error list precisely when that option's value is empty; when all five are
non-empty set_options returns without raising. -/
theorem c5_set_options_validation (cfg : Config) (o : OptionValues) :
    ((set_options cfg o).2 = Except.ok () ↔
      (o.username ≠ "" ∧ o.password ≠ "" ∧ o.login_form_url ≠ "" ∧ o.check_url ≠ ""
        ∧ o.check_string ≠ ""))
    ∧ (∀ missing, (set_options cfg o).2 = Except.error missing →
        (("username" ∈ missing ↔ o.username = "")
          ∧ ("password" ∈ missing ↔ o.password = "")
          ∧ ("login_form_url" ∈ missing ↔ o.login_form_url = "")
          ∧ ("check_url" ∈ missing ↔ o.check_url = "")
          ∧ ("check_string" ∈ missing ↔ o.check_string = ""))) := by
  by_cases h1 : o.username = "" <;> by_cases h2 : o.password = "" <;>
    by_cases h3 : o.login_form_url = "" <;> by_cases h4 : o.check_url = "" <;>
    by_cases h5 : o.check_string = "" <;>
    simp_all [set_options, missing_options, option_items]

def sample_options : OptionValues :=
  { username := "user1"
    password := ""
    login_form_url := "http://host.tld/login"
    check_url := "http://host.tld/check"
    check_string := "logged in" }

def empty_config : Config :=
  { username := ""
    password := ""
    login_form_url := ""
    check_url := ""
    check_string := "" }

/-- C10: set_options assigns all five configuration fields from the new option values before
performing the missing-options validation, so the configuration it leaves behind — also when
it raises — is built entirely from the (possibly partially empty) new values; the previous
configuration is overwritten, not preserved, on error. -/
theorem c10_assign_before_validate (cfg : Config) (o : OptionValues) :
    (set_options cfg o).1 =
      { username := o.username
        password := o.password
        login_form_url := o.login_form_url
        check_url := o.check_url
        check_string := o.check_string } := by
  rw [set_options]
  split <;> rfl

end Autocomplete
